import Mathlib

/-!
A shallow embedding of the core of the `reelscore-go` repository
(library CRUD services for movies and series, session store, rate
limiter, authentication middleware) together with theorems settling the
frozen claims about its specification.

Conventions of the embedding:
* Go `int`/`int64` values are modelled as `Int` (no arithmetic here ever
  approaches overflow), `COUNT(*)` results and list lengths as `Nat`.
* Postgres `numeric(3,1)` scores (Go `float64`) are modelled as `Int`
  in tenths: the Go code never does arithmetic on scores, it only stores
  and compares them, and every `numeric(3,1)` value is exactly `n/10`.
* Database tables are lists of rows; the SQL executed by the services is
  modelled by evaluating the `WHERE`/`ORDER BY`/`LIMIT`/`OFFSET` clauses
  the services build, over those lists.
* Fallible Go calls return `Except GoErr` values; Go's error wrapping
  via `fmt.Errorf("...: %w", err)` is an explicit `GoErr.wrapped`
  constructor, so both the wrapped message string and the unwrap chain
  are available, as in Go.
* Side-effecting calls (Redis, the stores) take the store state and the
  current time explicitly and return the new state.
-/

/-! ## UUIDs

Modelled as strings in the canonical 8-4-4-4-12 hexadecimal form, which
is exactly what `google/uuid`'s `UUID.String()` emits and a subset of
what `uuid.Parse` accepts.  Parsing the canonical form of a UUID always
succeeds and round-trips; strings not in canonical form are rejected,
matching `uuid.Parse` on such inputs. -/

def isHexChar (c : Char) : Bool :=
  c.isDigit || ('a' ≤ c && c ≤ 'f') || ('A' ≤ c && c ≤ 'F')

def isUuidStr (s : String) : Bool :=
  s.data.length == 36 &&
  (List.range 36).all (fun i =>
    let c := s.data.getD i ' '
    if i == 8 || i == 13 || i == 18 || i == 23 then c == '-' else isHexChar c)

def Uuid := {s : String // isUuidStr s = true}

instance : DecidableEq Uuid := fun a b =>
  decidable_of_iff (a.val = b.val) Subtype.ext_iff.symm

/-- Go `uuid.UUID.String()`: the canonical textual form. -/
def uuidString (u : Uuid) : String := u.val

/-- Go `uuid.Parse` restricted to canonical forms: succeeds exactly on
canonical UUID strings and inverts `uuidString`. -/
def uuidParse (s : String) : Option Uuid :=
  if h : isUuidStr s = true then some ⟨s, h⟩ else none

theorem uuidParse_uuidString (u : Uuid) : uuidParse (uuidString u) = some u := by
  unfold uuidParse uuidString
  rw [dif_pos u.property]
  rfl

/-! ## Go errors

`errNoRows` models the `pgx.ErrNoRows` singleton; `pgUniqueViolation`
models the `*pgconn.PgError` Postgres raises for a unique-constraint
violation (SQLSTATE 23505), whose `Error()` text includes the
constraint name and the SQLSTATE; `wrapped` models
`fmt.Errorf("<prefix>: %w", inner)`; `simple` models `errors.New` /
`fmt.Errorf` without `%w`. -/

inductive GoErr where
  | errNoRows : GoErr
  | pgUniqueViolation : String → GoErr
  | simple : String → GoErr
  | wrapped : String → GoErr → GoErr
deriving DecidableEq

/-- Go `err.Error()`: the message string of an error value.  A wrapped
error renders as `"<prefix>: <inner message>"`, exactly as
`fmt.Errorf("<prefix>: %w", inner)` does. -/
def GoErr.message : GoErr → String
  | .errNoRows => "no rows in result set"
  | .pgUniqueViolation c =>
      "ERROR: duplicate key value violates unique constraint " ++ c ++ " (SQLSTATE 23505)"
  | .simple m => m
  | .wrapped p inner => p ++ ": " ++ inner.message

/-- Go `==` between an error value and the `pgx.ErrNoRows` singleton:
true only for the singleton itself, never for an error that merely
wraps it. -/
def GoErr.isNoRowsBySingletonEq (e : GoErr) : Bool := e == GoErr.errNoRows

deriving instance DecidableEq for Except

/-! ## Dates and scores -/

/-- Calendar date carried by the `releaseDate` / `firstAired` columns. -/
structure SimpleDate where
  year : Nat
  month : Nat
  day : Nat
deriving DecidableEq

def isLeapYear (y : Nat) : Bool :=
  (y % 4 == 0 && y % 100 != 0) || y % 400 == 0

def daysInMonth (y m : Nat) : Nat :=
  if m == 2 then (if isLeapYear y then 29 else 28)
  else if m == 4 || m == 6 || m == 9 || m == 11 then 30
  else 31

def digitVal (c : Char) : Nat := c.toNat - 48

/-- Go `time.Parse("2006-01-02", s)`, date part only: accepts exactly
`YYYY-MM-DD` with a valid month and a day within the month (Go rejects
out-of-range months and days with a parse error). -/
def parseDateYMD (s : String) : Option SimpleDate :=
  match s.data with
  | [y1, y2, y3, y4, '-', m1, m2, '-', d1, d2] =>
      if (y1.isDigit && y2.isDigit && y3.isDigit && y4.isDigit &&
          m1.isDigit && m2.isDigit && d1.isDigit && d2.isDigit) then
        let y := ((digitVal y1 * 10 + digitVal y2) * 10 + digitVal y3) * 10 + digitVal y4
        let m := digitVal m1 * 10 + digitVal m2
        let d := digitVal d1 * 10 + digitVal d2
        if 1 ≤ m && m ≤ 12 && 1 ≤ d && d ≤ daysInMonth y m then
          some ⟨y, m, d⟩
        else none
      else none
  | _ => none

/-- Scores (`numeric(3,1)` / Go `float64`) in tenths: `87` is 8.7. -/
abbrev Score := Int

/-- Timestamps (`timestamp` columns, Unix seconds) as integers. -/
abbrev Timestamp := Int

/-! ## Movie data model (`internal/models`) -/

/-- A row of the `"Movie"` table (`models.Movie`). -/
structure Movie where
  id : Uuid
  tmdbId : Int
  createdAt : Timestamp
  updatedAt : Timestamp
  title : String
  posterPath : Option String
  releaseDate : Option SimpleDate
  tmdbScore : Score
  score : Score
  watched : Bool
  userId : Uuid
deriving DecidableEq

/-- `models.CreateMovieInput`. -/
structure CreateMovieInput where
  tmdbId : Int
  title : String
  posterPath : Option String
  releaseDate : Option String
  watched : Bool
  tmdbScore : Score
  score : Option Score
deriving DecidableEq

/-- `models.UpdateMovieInput`. -/
structure UpdateMovieInput where
  id : Uuid
  score : Option Score
  watched : Option Bool
deriving DecidableEq

/-- `models.ListMoviesInput`. -/
structure ListMoviesInput where
  watched : Bool
  query : String
  page : Int
  limit : Int
deriving DecidableEq

/-- `models.PaginatedMovies`. -/
structure PaginatedMovies where
  results : List Movie
  page : Int
  count : Nat
  totalPages : Nat
deriving DecidableEq

/-- The `"Movie"` table. -/
abbrev MovieDB := List Movie

/-! ## Database-engine primitives shared by both services

These model Postgres behaviour the services rely on (`ILIKE`,
`ORDER BY ... DESC`, the unique constraint), not repository code. -/

/-- Postgres `title ILIKE '%' || q || '%'` for wildcard-free `q`:
case-insensitive substring containment. -/
def ilikeContains (hay needle : String) : Bool :=
  let h := hay.toLower.data
  let n := needle.toLower.data
  (List.range (h.length + 1)).any (fun i => n.isPrefixOf (h.drop i))

/-- Insert into a list kept in strictly-descending-key order where
possible; equal keys keep first-come order (one of the tie orders
Postgres is allowed to return for `ORDER BY key DESC`). -/
def insertDescBy {α : Type} (key : α → Int) (x : α) : List α → List α
  | [] => [x]
  | y :: ys => if key y < key x then x :: y :: ys else y :: insertDescBy key x ys

/-- `ORDER BY key DESC` as an insertion sort. -/
def sortDescBy {α : Type} (key : α → Int) : List α → List α
  | [] => []
  | x :: xs => insertDescBy key x (sortDescBy key xs)

/-! ## MovieService (`internal/services`, movie service file) -/

/-- The `WHERE` clause `MovieService.List` builds:
`"userId" = $1 AND watched = $2` plus, for a non-empty query,
`AND title ILIKE '%' || query || '%'`. -/
def movieRowMatches (userID : Uuid) (watched : Bool) (q : String) (m : Movie) : Bool :=
  m.userId == userID && m.watched == watched && (q == "" || ilikeContains m.title q)

/-- `MovieService.List`: defaults `page` to 1 when below 1 and `limit`
to 27 when outside `[1,100]`, filters by owner, watched flag and
optional title search, orders by `tmdbScore` descending, pages with
`LIMIT limit OFFSET (page-1)*limit`, and reports the pre-pagination
count and `ceil(total/limit)` total pages.  Go computes the page count
as `int(math.Ceil(float64(total)/float64(limit)))`, which for these
integer ranges (limit in `[1,100]`, row counts far below `2^53`) is the
exact ceiling division written here. -/
def MovieService.List (db : MovieDB) (userID : Uuid) (input : ListMoviesInput) :
    PaginatedMovies :=
  let page : Int := if input.page < 1 then 1 else input.page
  let limit : Int := if input.limit < 1 || input.limit > 100 then 27 else input.limit
  let offset : Int := (page - 1) * limit
  let matching := db.filter (movieRowMatches userID input.watched input.query)
  let total := matching.length
  let rows := ((sortDescBy (fun m => m.tmdbScore) matching).drop offset.toNat).take limit.toNat
  let totalPages := (total + limit.toNat - 1) / limit.toNat
  { results := rows, page := page, count := total, totalPages := totalPages }

/-- `MovieService.Create`: defaults the user score to 0.0 when absent,
parses the optional `YYYY-MM-DD` release date (storing null when absent
or unparseable), and runs the `INSERT`.  The engine enforces the
`"Movie_tmdbId_userId_unique"` constraint: a duplicate
`(tmdbId, userId)` pair makes the insert fail with a unique-violation
error, which the service wraps as
`fmt.Errorf("failed to create movie: %w", err)`.  The engine-assigned
row id and `now()` are passed explicitly. -/
def MovieService.Create (db : MovieDB) (userID : Uuid) (input : CreateMovieInput)
    (newId : Uuid) (now : Timestamp) : Except GoErr (Movie × MovieDB) :=
  let score := input.score.getD 0
  let releaseDate : Option SimpleDate :=
    match input.releaseDate with
    | some s => if s ≠ "" then parseDateYMD s else none
    | none => none
  if db.any (fun m => m.tmdbId == input.tmdbId && m.userId == userID) then
    .error (.wrapped "failed to create movie"
      (.pgUniqueViolation "\x22Movie_tmdbId_userId_unique\x22"))
  else
    let m : Movie :=
      { id := newId, tmdbId := input.tmdbId, createdAt := now, updatedAt := now,
        title := input.title, posterPath := input.posterPath,
        releaseDate := releaseDate, tmdbScore := input.tmdbScore,
        score := score, watched := input.watched, userId := userID }
    .ok (m, db ++ [m])

/-- `MovieService.Get`: `SELECT ... WHERE id = $1 AND "userId" = $2`;
the raw `pgx.ErrNoRows` is returned unwrapped when no row matches. -/
def MovieService.Get (db : MovieDB) (id userID : Uuid) : Except GoErr Movie :=
  match db.find? (fun m => m.id == id && m.userId == userID) with
  | some m => .ok m
  | none => .error .errNoRows

/-- The row transformation `MovieService.Update`'s SQL applies:
`"updatedAt" = NOW()` always, `score`/`watched` only when supplied. -/
def applyMovieUpdate (input : UpdateMovieInput) (now : Timestamp) (m : Movie) : Movie :=
  { m with
    updatedAt := now,
    score := input.score.getD m.score,
    watched := input.watched.getD m.watched }

/-- `MovieService.Update`: dynamic `UPDATE ... WHERE id AND "userId"
... RETURNING`; when no row matches, `QueryRow.Scan` yields
`pgx.ErrNoRows`, which the service wraps as
`fmt.Errorf("failed to update movie: %w", err)`. -/
def MovieService.Update (db : MovieDB) (userID : Uuid) (input : UpdateMovieInput)
    (now : Timestamp) : Except GoErr (Movie × MovieDB) :=
  match db.find? (fun m => m.id == input.id && m.userId == userID) with
  | none => .error (.wrapped "failed to update movie" .errNoRows)
  | some m =>
      .ok (applyMovieUpdate input now m,
        db.map (fun r =>
          if r.id == input.id && r.userId == userID then applyMovieUpdate input now r else r))

/-- `MovieService.Delete`: `DELETE ... WHERE id AND "userId"`; zero
affected rows yields the raw `pgx.ErrNoRows`. -/
def MovieService.Delete (db : MovieDB) (id userID : Uuid) : Except GoErr MovieDB :=
  let remaining := db.filter (fun m => !(m.id == id && m.userId == userID))
  if remaining.length == db.length then .error .errNoRows else .ok remaining

/-! ## Movie handler (`internal/handlers/movies.go`) -/

/-- An HTTP response, reduced to its status code and the user-facing
message of its JSON body. -/
structure HttpResponse where
  status : Nat
  body : String
deriving DecidableEq

/-- The error branch of `MovieHandler.Create`: responds 409 Conflict
when the service error's `Error()` text equals the bare string
`"duplicate key value violates unique constraint"`, otherwise 500. -/
def MovieHandler.createErrorResponse (err : GoErr) : HttpResponse :=
  if err.message == "duplicate key value violates unique constraint" then
    { status := 409, body := "Movie already in your library" }
  else
    { status := 500, body := "Failed to create movie" }

/-- `MovieHandler.Create` after decoding the body: call the service,
classify errors, or respond 201 with the created movie. -/
def MovieHandler.Create (db : MovieDB) (userID : Uuid) (input : CreateMovieInput)
    (newId : Uuid) (now : Timestamp) : HttpResponse × MovieDB :=
  match MovieService.Create db userID input newId now with
  | .error e => (MovieHandler.createErrorResponse e, db)
  | .ok (_, db') => ({ status := 201, body := "Movie added to your library!" }, db')

/-- The error branch of `MovieHandler.Update`: responds 404 when the
service error `== pgx.ErrNoRows` (Go interface equality against the
singleton), otherwise 500. -/
def MovieHandler.updateErrorResponse (err : GoErr) : HttpResponse :=
  if err.isNoRowsBySingletonEq then
    { status := 404, body := "Movie not found" }
  else
    { status := 500, body := "Failed to update movie" }

/-- `MovieHandler.Update` after decoding the body: call the service,
classify errors, or respond 200 with the updated movie. -/
def MovieHandler.Update (db : MovieDB) (userID : Uuid) (input : UpdateMovieInput)
    (now : Timestamp) : HttpResponse × MovieDB :=
  match MovieService.Update db userID input now with
  | .error e => (MovieHandler.updateErrorResponse e, db)
  | .ok (_, db') => ({ status := 200, body := "" }, db')

/-! ## Serie data model (`internal/models`, serie model file) -/

/-- A row of the `"Serie"` table (`models.Serie`); identical to `Movie`
except the date column is `firstAired`. -/
structure Serie where
  id : Uuid
  tmdbId : Int
  createdAt : Timestamp
  updatedAt : Timestamp
  title : String
  posterPath : Option String
  firstAired : Option SimpleDate
  tmdbScore : Score
  score : Score
  watched : Bool
  userId : Uuid
deriving DecidableEq

/-- `models.CreateSerieInput`. -/
structure CreateSerieInput where
  tmdbId : Int
  title : String
  posterPath : Option String
  firstAired : Option String
  watched : Bool
  tmdbScore : Score
  score : Option Score
deriving DecidableEq

/-- `models.UpdateSerieInput`. -/
structure UpdateSerieInput where
  id : Uuid
  score : Option Score
  watched : Option Bool
deriving DecidableEq

/-- `models.ListSeriesInput`. -/
structure ListSeriesInput where
  watched : Bool
  query : String
  page : Int
  limit : Int
deriving DecidableEq

/-- `models.PaginatedSeries`. -/
structure PaginatedSeries where
  results : List Serie
  page : Int
  count : Nat
  totalPages : Nat
deriving DecidableEq

/-- The `"Serie"` table. -/
abbrev SerieDB := List Serie

/-! ## SerieService (`internal/services`, serie service file) -/

/-- The `WHERE` clause `SerieService.List` builds. -/
def serieRowMatches (userID : Uuid) (watched : Bool) (q : String) (s : Serie) : Bool :=
  s.userId == userID && s.watched == watched && (q == "" || ilikeContains s.title q)

/-- `SerieService.List`: same defaulting, filtering, ordering and
pagination as `MovieService.List`, over the `"Serie"` table. -/
def SerieService.List (db : SerieDB) (userID : Uuid) (input : ListSeriesInput) :
    PaginatedSeries :=
  let page : Int := if input.page < 1 then 1 else input.page
  let limit : Int := if input.limit < 1 || input.limit > 100 then 27 else input.limit
  let offset : Int := (page - 1) * limit
  let matching := db.filter (serieRowMatches userID input.watched input.query)
  let total := matching.length
  let rows := ((sortDescBy (fun s => s.tmdbScore) matching).drop offset.toNat).take limit.toNat
  let totalPages := (total + limit.toNat - 1) / limit.toNat
  { results := rows, page := page, count := total, totalPages := totalPages }

/-- `SerieService.Create`: as `MovieService.Create`, over `"Serie"`,
parsing `firstAired`, wrapping failures as
`fmt.Errorf("failed to create serie: %w", err)` and with the
`"Serie_tmdbId_userId_unique"` constraint. -/
def SerieService.Create (db : SerieDB) (userID : Uuid) (input : CreateSerieInput)
    (newId : Uuid) (now : Timestamp) : Except GoErr (Serie × SerieDB) :=
  let score := input.score.getD 0
  let firstAired : Option SimpleDate :=
    match input.firstAired with
    | some s => if s ≠ "" then parseDateYMD s else none
    | none => none
  if db.any (fun s => s.tmdbId == input.tmdbId && s.userId == userID) then
    .error (.wrapped "failed to create serie"
      (.pgUniqueViolation "\x22Serie_tmdbId_userId_unique\x22"))
  else
    let s : Serie :=
      { id := newId, tmdbId := input.tmdbId, createdAt := now, updatedAt := now,
        title := input.title, posterPath := input.posterPath,
        firstAired := firstAired, tmdbScore := input.tmdbScore,
        score := score, watched := input.watched, userId := userID }
    .ok (s, db ++ [s])

/-- `SerieService.Get`: as `MovieService.Get`, over `"Serie"`. -/
def SerieService.Get (db : SerieDB) (id userID : Uuid) : Except GoErr Serie :=
  match db.find? (fun s => s.id == id && s.userId == userID) with
  | some s => .ok s
  | none => .error .errNoRows

/-- The row transformation `SerieService.Update`'s SQL applies. -/
def applySerieUpdate (input : UpdateSerieInput) (now : Timestamp) (s : Serie) : Serie :=
  { s with
    updatedAt := now,
    score := input.score.getD s.score,
    watched := input.watched.getD s.watched }

/-- `SerieService.Update`: as `MovieService.Update`, over `"Serie"`,
wrapping as `fmt.Errorf("failed to update serie: %w", err)`. -/
def SerieService.Update (db : SerieDB) (userID : Uuid) (input : UpdateSerieInput)
    (now : Timestamp) : Except GoErr (Serie × SerieDB) :=
  match db.find? (fun s => s.id == input.id && s.userId == userID) with
  | none => .error (.wrapped "failed to update serie" .errNoRows)
  | some s =>
      .ok (applySerieUpdate input now s,
        db.map (fun r =>
          if r.id == input.id && r.userId == userID then applySerieUpdate input now r else r))

/-- `SerieService.Delete`: as `MovieService.Delete`, over `"Serie"`. -/
def SerieService.Delete (db : SerieDB) (id userID : Uuid) : Except GoErr SerieDB :=
  let remaining := db.filter (fun s => !(s.id == id && s.userId == userID))
  if remaining.length == db.length then .error .errNoRows else .ok remaining

/-! ## Rate limiter (`internal/middleware/ratelimit.go`)

The Redis sorted set under `ratelimit:<identity>` stores one member per
distinct request timestamp: the member string is `fmt.Sprintf("%d",
now)` (Unix seconds) and its score is the same value, so the set is
faithfully a list of distinct integers.  `ZADD` of an existing member
only updates its (identical) score.  The pipeline's four commands are
recorded in an operation trace so that "no Redis commands are issued"
is expressible. -/

inductive RedisZOp where
  | zremrangebyscore : Int → Int → RedisZOp
  | zcard : RedisZOp
  | zadd : Int → RedisZOp
  | keyExpire : Int → RedisZOp
deriving DecidableEq

/-- The `RateLimiter` struct's configuration fields (the Redis handle
is replaced by explicit state passing). -/
structure RateLimiter where
  maxRequests : Int
  window : Int
  isProduction : Bool
deriving DecidableEq

/-- Result of one `checkRateLimit` call: the returned boolean, the
sorted-set state after the pipeline, and the Redis commands issued. -/
structure RateLimitResult where
  allowed : Bool
  state : List Int
  ops : List RedisZOp
deriving DecidableEq

/-- Redis `ZADD key now now`: set-insert of the member. -/
def zaddMember (st : List Int) (t : Int) : List Int :=
  if st.contains t then st else st ++ [t]

/-- `RateLimiter.checkRateLimit`: outside production it returns `true`
immediately, issuing no Redis commands.  In production it pipelines
`ZREMRANGEBYSCORE key 0 (now - window)`, `ZCARD`, `ZADD key now now`,
`EXPIRE key window`, and allows the request iff the counted
cardinality (taken after the removal, before the insertion) is
strictly below `maxRequests`. -/
def RateLimiter.checkRateLimit (rl : RateLimiter) (st : List Int) (now : Int) :
    RateLimitResult :=
  if !rl.isProduction then
    { allowed := true, state := st, ops := [] }
  else
    let windowStart := now - rl.window
    let st1 := st.filter (fun s => !(0 ≤ s && s ≤ windowStart))
    let count : Int := st1.length
    let st2 := zaddMember st1 now
    { allowed := count < rl.maxRequests,
      state := st2,
      ops := [.zremrangebyscore 0 windowStart, .zcard, .zadd now, .keyExpire rl.window] }

/-- Run `checkRateLimit` over a sequence of request times, threading
the sorted-set state; returns the per-call decisions and final state. -/
def RateLimiter.run (rl : RateLimiter) : List Int → List Int → List Bool × List Int
  | st, [] => ([], st)
  | st, t :: ts =>
      let r := rl.checkRateLimit st t
      let rest := RateLimiter.run rl r.state ts
      (r.allowed :: rest.fst, rest.snd)

/-! ## Session store (`internal/database/redis.go`)

Redis string keys with absolute expiry times; an entry is live at `now`
when `now < expiresAt`.  `SET key val ttl` replaces any previous entry;
`EXPIRE` on a live key resets its expiry; `GET` of an absent or expired
key is `redis.Nil`. -/

structure KVEntry where
  key : String
  value : String
  expiresAt : Int
deriving DecidableEq

abbrev RedisKV := List KVEntry

/-- Redis `GET` at time `now`: the value when the key is present and
unexpired. -/
def kvGetLive (kv : RedisKV) (now : Int) (key : String) : Option String :=
  match kv.find? (fun e => e.key == key) with
  | some e => if now < e.expiresAt then some e.value else none
  | none => none

/-- Redis `SET key value EX ttl` at time `now`. -/
def kvSet (kv : RedisKV) (now : Int) (key value : String) (ttl : Int) : RedisKV :=
  kv.filter (fun e => e.key != key) ++ [⟨key, value, now + ttl⟩]

/-- Redis `EXPIRE key ttl` at time `now`. -/
def kvExpire (kv : RedisKV) (now : Int) (key : String) (ttl : Int) : RedisKV :=
  kv.map (fun e => if e.key == key then { e with expiresAt := now + ttl } else e)

/-- Redis `DEL key`. -/
def kvDel (kv : RedisKV) (key : String) : RedisKV :=
  kv.filter (fun e => e.key != key)

/-- The `SessionStore` struct: its Redis state and configured TTL. -/
structure SessionStore where
  kv : RedisKV
  ttl : Int
deriving DecidableEq

/-- `SessionStore.Set`: stores `"session:" ++ sessionID ↦
userID.String()` with the full TTL. -/
def SessionStore.Set (s : SessionStore) (now : Int) (sessionID : String) (userID : Uuid) :
    SessionStore :=
  { s with kv := kvSet s.kv now ("session:" ++ sessionID) (uuidString userID) s.ttl }

/-- `SessionStore.Get`: `GET session:<id>`; `redis.Nil` becomes the
`"session not found"` error; a value `uuid.Parse` rejects becomes the
`fmt.Errorf("invalid user ID in session: %w", err)` error, returned
before the TTL refresh; on success the key's TTL is refreshed to the
full configured TTL and the parsed user ID returned.  (The inner text
of the parse error comes from `google/uuid` and is summarised.) -/
def SessionStore.Get (s : SessionStore) (now : Int) (sessionID : String) :
    Except GoErr Uuid × SessionStore :=
  let key := "session:" ++ sessionID
  match kvGetLive s.kv now key with
  | none => (.error (.simple "session not found"), s)
  | some val =>
      match uuidParse val with
      | none => (.error (.wrapped "invalid user ID in session" (.simple "invalid UUID")), s)
      | some uid => (.ok uid, { s with kv := kvExpire s.kv now key s.ttl })

/-- `SessionStore.Delete`: `DEL session:<id>`, idempotent. -/
def SessionStore.Delete (s : SessionStore) (sessionID : String) : SessionStore :=
  { s with kv := kvDel s.kv ("session:" ++ sessionID) }

/-! ## Users (`internal/models/user.go`, `internal/services/user_service.go`) -/

inductive Provider where
  | GITHUB : Provider
  | GOOGLE : Provider
deriving DecidableEq

/-- `models.User`. -/
structure User where
  id : Uuid
  providerId : String
  provider : Provider
  email : String
  name : String
  createdAt : Timestamp
  updatedAt : Timestamp
deriving DecidableEq

/-- `UserService.Get`: `SELECT ... FROM "User" WHERE id = $1`, raw
`pgx.ErrNoRows` when absent. -/
def UserService.Get (users : List User) (id : Uuid) : Except GoErr User :=
  match users.find? (fun u => u.id == id) with
  | some u => .ok u
  | none => .error .errNoRows

/-! ## Auth middleware (`internal/middleware`, auth middleware file) -/

/-- An inbound request, reduced to the value of the session cookie (the
cookie named by the middleware's `cookieName`) when the request carries
one. -/
structure Request where
  sessionCookie : Option String
deriving DecidableEq

/-- How a `RequireAuth`-wrapped handler call terminates. -/
inductive AuthOutcome where
  | redirect : String → Nat → AuthOutcome
  | next : User → Uuid → AuthOutcome
deriving DecidableEq

/-- Result of running the middleware: the outcome, the session store
afterwards, and whether a `MaxAge: -1` cookie was sent to clear the
client's session cookie. -/
structure AuthResult where
  outcome : AuthOutcome
  store : SessionStore
  cookieCleared : Bool
deriving DecidableEq

/-- `http.StatusSeeOther`, the code `http.Redirect` is called with. -/
def statusSeeOther : Nat := 303

/-- `AuthMiddleware.RequireAuth`: no cookie, or a session lookup
failure, redirects to `/login`; a session resolving to a user the
database no longer has deletes the session, clears the cookie and
redirects; otherwise the user and user ID are attached and the wrapped
handler runs. -/
def AuthMiddleware.RequireAuth (users : List User) (store : SessionStore) (now : Int)
    (req : Request) : AuthResult :=
  match req.sessionCookie with
  | none => { outcome := .redirect "/login" statusSeeOther, store := store, cookieCleared := false }
  | some cookieVal =>
      match SessionStore.Get store now cookieVal with
      | (.error _, store1) =>
          { outcome := .redirect "/login" statusSeeOther, store := store1, cookieCleared := false }
      | (.ok userID, store1) =>
          match UserService.Get users userID with
          | .error _ =>
              { outcome := .redirect "/login" statusSeeOther,
                store := SessionStore.Delete store1 cookieVal,
                cookieCleared := true }
          | .ok user =>
              { outcome := .next user userID, store := store1, cookieCleared := false }

/-! ## General lemmas about the embedding's primitives -/

/-- Go's `int(math.Ceil(float64(c)/float64(e)))` for naturals, written
as `(c + e - 1) / e`, is the exact rational ceiling of `c / e`. -/
theorem natCeilDiv_eq (c e : Nat) (he : 0 < e) :
    (c + e - 1) / e = ⌈(c : ℚ) / (e : ℚ)⌉₊ := by
  rcases Nat.eq_zero_or_pos c with hc | hc
  · subst hc
    have h1 : (0 + e - 1) / e = 0 := Nat.div_eq_of_lt (by omega)
    rw [h1]
    simp
  · obtain ⟨q, hq⟩ : ∃ q, (c + e - 1) / e = q := ⟨_, rfl⟩
    rw [hq]
    have hq1 : 1 ≤ q := by
      rw [← hq, Nat.le_div_iff_mul_le he]
      omega
    have hub : q * e ≤ c + e - 1 := by
      rw [← hq]
      exact Nat.div_mul_le_self _ _
    have hlb : c + e - 1 < q * e + e := by
      rw [← hq]
      exact Nat.lt_div_mul_add he
    have h1 : c ≤ q * e := by omega
    have h2 : (q - 1) * e < c := by
      rw [Nat.sub_one_mul]
      omega
    have he' : (0 : ℚ) < (e : ℚ) := by exact_mod_cast he
    symm
    rw [Nat.ceil_eq_iff (by omega)]
    refine ⟨?_, ?_⟩
    · rw [lt_div_iff₀ he']
      exact_mod_cast h2
    · rw [div_le_iff₀ he']
      exact_mod_cast h1

theorem mem_insertDescBy {α : Type} (key : α → Int) (x a : α) (l : List α) :
    a ∈ insertDescBy key x l ↔ a = x ∨ a ∈ l := by
  induction l with
  | nil => simp [insertDescBy]
  | cons y ys ih =>
      by_cases h : key y < key x
      · simp [insertDescBy, h]
      · simp [insertDescBy, h, ih]
        tauto

theorem mem_sortDescBy {α : Type} (key : α → Int) (a : α) (l : List α) :
    a ∈ sortDescBy key l ↔ a ∈ l := by
  induction l with
  | nil => simp [sortDescBy]
  | cons x xs ih =>
      simp [sortDescBy, mem_insertDescBy, ih]

theorem insertDescBy_map {α β : Type} (f : α → β) (ka : α → Int) (kb : β → Int)
    (hk : ∀ a, kb (f a) = ka a) (x : α) (l : List α) :
    insertDescBy kb (f x) (l.map f) = (insertDescBy ka x l).map f := by
  induction l with
  | nil => simp [insertDescBy]
  | cons y ys ih =>
      by_cases h : ka y < ka x
      · simp [insertDescBy, hk, h]
      · simp [insertDescBy, hk, h, ih]

theorem sortDescBy_map {α β : Type} (f : α → β) (ka : α → Int) (kb : β → Int)
    (hk : ∀ a, kb (f a) = ka a) (l : List α) :
    sortDescBy kb (l.map f) = (sortDescBy ka l).map f := by
  induction l with
  | nil => simp [sortDescBy]
  | cons x xs ih =>
      simp only [List.map_cons, sortDescBy, ih]
      exact insertDescBy_map f ka kb hk x (sortDescBy ka xs)

theorem find?_append_of_left_none {α : Type} (p : α → Bool) (l l2 : List α)
    (h : ∀ a ∈ l, p a = false) : List.find? p (l ++ l2) = List.find? p l2 := by
  induction l with
  | nil => rfl
  | cons a as ih =>
      simp only [List.cons_append, List.find?]
      rw [h a (by simp)]
      exact ih (fun a ha => h a (by simp [ha]))

/-- Wrapping with `"failed to create movie: "` makes any error's text
start with an `f`, so it can never equal the bare constraint-violation
string the handler compares against. -/
theorem wrapped_create_msg_ne (m : String) :
    ("failed to create movie" ++ ": " ++ m) ≠
      "duplicate key value violates unique constraint" := by
  intro h
  have h2 := congrArg String.data h
  rw [String.data_append, String.data_append] at h2
  have h3 := congrArg List.head? h2
  simp at h3

theorem zaddMember_contains (st : List Int) (t : Int) :
    (zaddMember st t).contains t = true := by
  unfold zaddMember
  by_cases h : st.contains t = true
  · rw [if_pos h]
    exact h
  · rw [if_neg h]
    simp

/-- Redis `GET`-style raw lookup of a key's entry (liveness aside). -/
def kvFindEntry (kv : RedisKV) (key : String) : Option KVEntry :=
  kv.find? (fun e => e.key == key)

theorem kvFindEntry_kvExpire (kv : RedisKV) (now : Int) (key : String) (ttl : Int) :
    kvFindEntry (kvExpire kv now key ttl) key
      = (kvFindEntry kv key).map (fun e => { e with expiresAt := now + ttl }) := by
  induction kv with
  | nil => rfl
  | cons e kv' ih =>
      by_cases h : e.key = key
      · have hb : (e.key == key) = true := beq_iff_eq.mpr h
        unfold kvFindEntry kvExpire
        simp only [List.map_cons, hb, if_true]
        rw [List.find?_cons_of_pos _ (by simp [hb]), List.find?_cons_of_pos _ (by simp [hb])]
        simp
      · have hb : (e.key == key) = false := beq_eq_false_iff_ne.mpr h
        unfold kvFindEntry kvExpire at *
        simp only [List.map_cons, hb, Bool.false_eq_true, if_false]
        rw [List.find?_cons_of_neg _ (by simp [hb]), List.find?_cons_of_neg _ (by simp [hb])]
        exact ih

/-! ## Concrete fixtures used by witnesses and counterexamples -/

def uuidAlice : Uuid := ⟨"11111111-1111-1111-1111-111111111111", by decide⟩

def uuidBob : Uuid := ⟨"22222222-2222-2222-2222-222222222222", by decide⟩

def uuidItem1 : Uuid := ⟨"33333333-3333-3333-3333-333333333333", by decide⟩

def uuidItem2 : Uuid := ⟨"44444444-4444-4444-4444-444444444444", by decide⟩

/-- The spec's concrete create scenario: tmdbId 603, "The Matrix",
tmdbScore 8.7, watchlist. -/
def matrixInput : CreateMovieInput :=
  { tmdbId := 603, title := "The Matrix", posterPath := none,
    releaseDate := some "1999-03-31", watched := false, tmdbScore := 87, score := none }

/-- The row the first `Create` of `matrixInput` for Alice produces. -/
def matrixRow : Movie :=
  { id := uuidItem1, tmdbId := 603, createdAt := 10, updatedAt := 10,
    title := "The Matrix", posterPath := none, releaseDate := some ⟨1999, 3, 31⟩,
    tmdbScore := 87, score := 0, watched := false, userId := uuidAlice }

/-- The same title created by Bob. -/
def matrixRowBob : Movie :=
  { id := uuidItem2, tmdbId := 603, createdAt := 11, updatedAt := 11,
    title := "The Matrix", posterPath := none, releaseDate := some ⟨1999, 3, 31⟩,
    tmdbScore := 87, score := 0, watched := false, userId := uuidBob }

/-- An update supplying only `watched = true`. -/
def watchedOnlyInput : UpdateMovieInput :=
  { id := uuidItem1, score := none, watched := some true }

/-- `matrixRow` after `watchedOnlyInput` at time 20. -/
def matrixRowWatched : Movie :=
  { matrixRow with watched := true, updatedAt := 20 }

/-! ## Claim C1 -/

/-- Claim C1 (code bug): the duplicate-create path.  The service wraps
the unique-violation error as `fmt.Errorf("failed to create movie: %w",
err)`, so the error text the handler sees always starts with
`"failed to create movie: "`; the handler compares that text for
*equality* with the bare string `"duplicate key value violates unique
constraint"`, which can never match — the 409 Conflict branch is
unreachable, and a duplicate create is surfaced as a generic 500, not
as the claimed 409 "already in your library".  The conjuncts: (1) no
wrapped service error ever takes the 409 branch; (2) the first create
succeeds with 201; (3) the duplicate create fails in the service with
the wrapped unique-violation error; (4) the handler turns it into 500;
(5) the same title for a different user succeeds. -/
theorem movie_create_conflict_unreachable :
    (∀ e : GoErr, MovieHandler.createErrorResponse (.wrapped "failed to create movie" e)
        = { status := 500, body := "Failed to create movie" })
    ∧ (MovieHandler.Create [] uuidAlice matrixInput uuidItem1 10
        = ({ status := 201, body := "Movie added to your library!" }, [matrixRow]))
    ∧ (MovieService.Create [matrixRow] uuidAlice matrixInput uuidItem2 11
        = .error (.wrapped "failed to create movie"
            (.pgUniqueViolation "\x22Movie_tmdbId_userId_unique\x22")))
    ∧ (MovieHandler.Create [matrixRow] uuidAlice matrixInput uuidItem2 11
        = ({ status := 500, body := "Failed to create movie" }, [matrixRow]))
    ∧ (MovieService.Create [matrixRow] uuidBob matrixInput uuidItem2 11
        = .ok (matrixRowBob, [matrixRow, matrixRowBob])) := by
  refine ⟨?_, by decide, by decide, by decide, by decide⟩
  intro e
  have hne := wrapped_create_msg_ne e.message
  have hb : (GoErr.message (.wrapped "failed to create movie" e)
      == "duplicate key value violates unique constraint") = false := by
    simp only [GoErr.message]
    exact beq_eq_false_iff_ne.mpr hne
  simp [MovieHandler.createErrorResponse, hb]

/-! ## Claim C4 -/

/-- Claim C4 (code bug): the not-found path of `Update`.  The service
wraps the no-rows failure as `fmt.Errorf("failed to update movie: %w",
pgx.ErrNoRows)`, but the handler tests `err == pgx.ErrNoRows` — Go
interface equality against the singleton — which a wrapped error never
satisfies, so the 404 branch is unreachable and an update of a missing
or foreign row is surfaced as 500.  The frame part of the claim holds:
supplying only `watched` leaves `score` unchanged and refreshes only
`updatedAt`.  Conjuncts: (1) the wrapped error never takes the 404
branch; (2) the service fails with the wrapped no-rows error when no
row matches; (3) the handler turns it into 500; (4) at a concrete row,
a watched-only update changes exactly `watched` and `updatedAt`. -/
theorem movie_update_notfound_unreachable :
    (∀ e : GoErr, MovieHandler.updateErrorResponse (.wrapped "failed to update movie" e)
        = { status := 500, body := "Failed to update movie" })
    ∧ (MovieService.Update [] uuidAlice watchedOnlyInput 20
        = .error (.wrapped "failed to update movie" .errNoRows))
    ∧ (MovieHandler.Update [] uuidAlice watchedOnlyInput 20
        = ({ status := 500, body := "Failed to update movie" }, []))
    ∧ (MovieService.Update [matrixRow] uuidAlice watchedOnlyInput 20
        = .ok (matrixRowWatched, [matrixRowWatched])) := by
  refine ⟨?_, by decide, by decide, by decide⟩
  intro e
  simp [MovieHandler.updateErrorResponse, GoErr.isNoRowsBySingletonEq]

/-! ## Claim C9 -/

/-- Claim C9: outside production, `checkRateLimit` returns allowed
immediately — unchanged sorted-set state and an empty list of issued
Redis commands, not merely a permissive quota. -/
theorem ratelimit_nonproduction_skips :
    ∀ (rl : RateLimiter) (st : List Int) (now : Int), rl.isProduction = false →
      rl.checkRateLimit st now = { allowed := true, state := st, ops := [] } := by
  intro rl st now h
  unfold RateLimiter.checkRateLimit
  rw [h]
  simp

def rlDev : RateLimiter := { maxRequests := 1, window := 60, isProduction := false }

theorem ratelimit_nonproduction_skips_witness :
    rlDev.isProduction = false
    ∧ rlDev.checkRateLimit [5, 6] 100 = { allowed := true, state := [5, 6], ops := [] } :=
  ⟨by decide, ratelimit_nonproduction_skips rlDev [5, 6] 100 (by decide)⟩

/-! ## Claim C10 -/

/-- Claim C10: when the session key exists and is unexpired but its
stored value does not parse as a UUID, `SessionStore.Get` fails with
the `"invalid user ID in session"` wrapping error and returns before
the TTL-refreshing `Expire` call, leaving the store unchanged. -/
theorem session_get_invalid_uuid_value :
    ∀ (s : SessionStore) (now : Int) (tok val : String),
      kvGetLive s.kv now ("session:" ++ tok) = some val →
      uuidParse val = none →
      SessionStore.Get s now tok
        = (.error (.wrapped "invalid user ID in session" (.simple "invalid UUID")), s) := by
  intro s now tok val h1 h2
  simp only [SessionStore.Get, h1, h2]

def badValueStore : SessionStore := { kv := [⟨"session:tok", "not-a-uuid", 100⟩], ttl := 100 }

theorem session_get_invalid_uuid_value_witness :
    kvGetLive badValueStore.kv 0 ("session:" ++ "tok") = some "not-a-uuid"
    ∧ uuidParse "not-a-uuid" = none
    ∧ SessionStore.Get badValueStore 0 "tok"
        = (.error (.wrapped "invalid user ID in session" (.simple "invalid UUID")),
           badValueStore) :=
  ⟨by decide, by decide,
   session_get_invalid_uuid_value badValueStore 0 "tok" "not-a-uuid" (by decide) (by decide)⟩

/-! ## Claim C2 -/

/-- Claim C2: ownership is enforced inside each query's predicate.
Every row `List` returns belongs to the requesting user, and `Get`
yields `pgx.ErrNoRows` whenever every row with the requested id belongs
to someone else — there is no post-hoc check to bypass. -/
theorem list_get_ownership :
    (∀ (db : MovieDB) (u : Uuid) (input : ListMoviesInput) (m : Movie),
        m ∈ (MovieService.List db u input).results → m.userId = u)
    ∧ (∀ (db : MovieDB) (id u : Uuid),
        (∀ m ∈ db, m.id = id → m.userId ≠ u) →
        MovieService.Get db id u = .error .errNoRows) := by
  constructor
  · intro db u input m hm
    simp only [MovieService.List] at hm
    have h1 : m ∈ sortDescBy (fun m => m.tmdbScore)
        (db.filter (movieRowMatches u input.watched input.query)) :=
      List.drop_subset _ _ (List.take_subset _ _ hm)
    have h2 : m ∈ db.filter (movieRowMatches u input.watched input.query) :=
      (mem_sortDescBy _ _ _).mp h1
    have h3 := (List.mem_filter.mp h2).2
    simp only [movieRowMatches, Bool.and_eq_true, beq_iff_eq] at h3
    exact h3.1.1
  · intro db id u h
    unfold MovieService.Get
    have hnone : db.find? (fun m => m.id == id && m.userId == u) = none := by
      rw [List.find?_eq_none]
      intro m hm
      by_cases hid : m.id = id
      · have hu := h m hm hid
        simp [hid, hu]
      · simp [hid]
    rw [hnone]

def listInputDefault : ListMoviesInput := { watched := false, query := "", page := 1, limit := 27 }

theorem list_get_ownership_witness :
    matrixRow.userId = uuidAlice
    ∧ MovieService.Get [matrixRow] uuidItem1 uuidBob = .error .errNoRows :=
  ⟨list_get_ownership.1 [matrixRow] uuidAlice listInputDefault matrixRow (by decide),
   list_get_ownership.2 [matrixRow] uuidItem1 uuidBob (by decide)⟩

/-! ## Claim C6 -/

/-- Claim C6: `List`'s pagination guards.  A page below 1 behaves
exactly like page 1; a limit outside `[1,100]` behaves exactly like the
27 fallback; the reported count is the pre-pagination matching count;
`totalPages` is the exact rational ceiling of `count / effectiveLimit`;
and an empty match yields 0 total pages rather than a division error. -/
theorem list_pagination_defaults :
    (∀ (db : MovieDB) (u : Uuid) (w : Bool) (q : String) (p l : Int), p < 1 →
      MovieService.List db u { watched := w, query := q, page := p, limit := l }
        = MovieService.List db u { watched := w, query := q, page := 1, limit := l })
    ∧ (∀ (db : MovieDB) (u : Uuid) (w : Bool) (q : String) (p l : Int), (l < 1 ∨ 100 < l) →
      MovieService.List db u { watched := w, query := q, page := p, limit := l }
        = MovieService.List db u { watched := w, query := q, page := p, limit := 27 })
    ∧ (∀ (db : MovieDB) (u : Uuid) (input : ListMoviesInput),
      (MovieService.List db u input).count
        = (db.filter (movieRowMatches u input.watched input.query)).length)
    ∧ (∀ (db : MovieDB) (u : Uuid) (input : ListMoviesInput) (e : Nat),
      (e : Int) = (if input.limit < 1 || input.limit > 100 then 27 else input.limit) →
      (MovieService.List db u input).totalPages
        = ⌈((MovieService.List db u input).count : ℚ) / (e : ℚ)⌉₊)
    ∧ (∀ (db : MovieDB) (u : Uuid) (input : ListMoviesInput),
      (MovieService.List db u input).count = 0 →
      (MovieService.List db u input).totalPages = 0) := by
  refine ⟨?_, ?_, ?_, ?_, ?_⟩
  · intro db u w q p l h
    simp [MovieService.List, h]
  · intro db u w q p l h
    rcases h with h | h
    · simp [MovieService.List, h]
    · simp [MovieService.List, h]
  · intro db u input
    simp [MovieService.List]
  · intro db u input e he
    have hpos : 0 < e := by
      split at he
      · omega
      · next hc =>
          simp only [Bool.or_eq_true, decide_eq_true_eq, not_or] at hc
          omega
    simp only [MovieService.List]
    rw [← he, Int.toNat_natCast]
    exact natCeilDiv_eq _ e hpos
  · intro db u input h
    simp only [MovieService.List] at h ⊢
    rw [h]
    split
    · rfl
    · next hc =>
        simp only [Bool.or_eq_true, decide_eq_true_eq, not_or] at hc
        have h1 : 1 ≤ input.limit := by omega
        have h2 : 1 ≤ input.limit.toNat := by omega
        exact Nat.div_eq_of_lt (by omega)

theorem list_pagination_defaults_witness :
    ((-3 : Int) < 1
      ∧ MovieService.List [matrixRow] uuidAlice
            { watched := false, query := "", page := -3, limit := 27 }
          = MovieService.List [matrixRow] uuidAlice
            { watched := false, query := "", page := 1, limit := 27 })
    ∧ (((101 : Int) < 1 ∨ (100 : Int) < 101)
      ∧ MovieService.List [matrixRow] uuidAlice
            { watched := false, query := "", page := 1, limit := 101 }
          = MovieService.List [matrixRow] uuidAlice
            { watched := false, query := "", page := 1, limit := 27 })
    ∧ (MovieService.List [matrixRow] uuidAlice listInputDefault).count
        = ([matrixRow].filter
            (movieRowMatches uuidAlice listInputDefault.watched listInputDefault.query)).length
    ∧ (((27 : Nat) : Int)
          = (if listInputDefault.limit < 1 || listInputDefault.limit > 100
             then 27 else listInputDefault.limit)
      ∧ (MovieService.List [matrixRow] uuidAlice listInputDefault).totalPages
          = ⌈((MovieService.List [matrixRow] uuidAlice listInputDefault).count : ℚ)
              / ((27 : Nat) : ℚ)⌉₊)
    ∧ ((MovieService.List [] uuidAlice listInputDefault).count = 0
      ∧ (MovieService.List [] uuidAlice listInputDefault).totalPages = 0) :=
  ⟨⟨by decide,
    list_pagination_defaults.1 [matrixRow] uuidAlice false "" (-3) 27 (by decide)⟩,
   ⟨Or.inr (by decide),
    list_pagination_defaults.2.1 [matrixRow] uuidAlice false "" 1 101 (Or.inr (by decide))⟩,
   list_pagination_defaults.2.2.1 [matrixRow] uuidAlice listInputDefault,
   ⟨by decide,
    list_pagination_defaults.2.2.2.1 [matrixRow] uuidAlice listInputDefault 27 (by decide)⟩,
   ⟨by decide,
    list_pagination_defaults.2.2.2.2 [] uuidAlice listInputDefault (by decide)⟩⟩

/-! ## Claim C5 -/

theorem kvGetLive_kvSet (kv : RedisKV) (now now2 ttl : Int) (key value : String) :
    kvGetLive (kvSet kv now key value ttl) now2 key
      = if now2 < now + ttl then some value else none := by
  unfold kvGetLive kvSet
  rw [find?_append_of_left_none]
  · simp [List.find?]
  · intro e he
    have h2 := (List.mem_filter.mp he).2
    simp only [bne_iff_ne, ne_eq] at h2
    exact beq_eq_false_iff_ne.mpr h2

/-- Claim C5: the session-store contract.  `Get` after `Set` returns
the stored user ID while the TTL has not elapsed; once the full TTL has
elapsed (or the token was never stored) `Get` fails with the
`"session not found"` error; and every successful `Get` slides the
mapping's expiry forward to the full configured TTL from the time of
the read. -/
theorem session_roundtrip_ttl :
    (∀ (s : SessionStore) (now now2 : Int) (tok : String) (uid : Uuid),
        now2 < now + s.ttl →
        (SessionStore.Get (SessionStore.Set s now tok uid) now2 tok).fst = .ok uid)
    ∧ (∀ (s : SessionStore) (now now2 : Int) (tok : String) (uid : Uuid),
        now + s.ttl ≤ now2 →
        (SessionStore.Get (SessionStore.Set s now tok uid) now2 tok).fst
          = .error (.simple "session not found"))
    ∧ (∀ (s : SessionStore) (now : Int) (tok : String),
        (∀ e ∈ s.kv, e.key ≠ "session:" ++ tok) →
        (SessionStore.Get s now tok).fst = .error (.simple "session not found"))
    ∧ (∀ (s : SessionStore) (now : Int) (tok : String) (uid : Uuid),
        (SessionStore.Get s now tok).fst = .ok uid →
        (kvFindEntry (SessionStore.Get s now tok).snd.kv ("session:" ++ tok)).map
            KVEntry.expiresAt
          = some (now + s.ttl)) := by
  refine ⟨?_, ?_, ?_, ?_⟩
  · intro s now now2 tok uid h
    simp only [SessionStore.Get, SessionStore.Set]
    rw [kvGetLive_kvSet, if_pos h]
    simp [uuidParse_uuidString]
  · intro s now now2 tok uid h
    simp only [SessionStore.Get, SessionStore.Set]
    rw [kvGetLive_kvSet, if_neg (not_lt.mpr h)]
  · intro s now tok h
    have hf : s.kv.find? (fun e => e.key == "session:" ++ tok) = none := by
      rw [List.find?_eq_none]
      intro e he
      simp [h e he]
    simp [SessionStore.Get, kvGetLive, hf]
  · intro s now tok uid hok
    simp only [SessionStore.Get] at hok ⊢
    rcases hg : kvGetLive s.kv now ("session:" ++ tok) with _ | val
    · simp [hg] at hok
    · rcases hp : uuidParse val with _ | u
      · simp [hg, hp] at hok
      · simp only [hg] at hok ⊢
        simp only [hp] at hok ⊢
        rw [kvFindEntry_kvExpire]
        rcases hf : kvFindEntry s.kv ("session:" ++ tok) with _ | entry
        · unfold kvGetLive at hg
          unfold kvFindEntry at hf
          rw [hf] at hg
          simp at hg
        · simp

def emptyStore : SessionStore := { kv := [], ttl := 100 }

def tokStore : SessionStore := SessionStore.Set emptyStore 0 "tok" uuidAlice

theorem session_roundtrip_ttl_witness :
    ((50 : Int) < 0 + emptyStore.ttl
      ∧ (SessionStore.Get tokStore 50 "tok").fst = .ok uuidAlice)
    ∧ ((0 : Int) + emptyStore.ttl ≤ 120
      ∧ (SessionStore.Get tokStore 120 "tok").fst = .error (.simple "session not found"))
    ∧ ((SessionStore.Get emptyStore 0 "zzz").fst = .error (.simple "session not found"))
    ∧ ((kvFindEntry (SessionStore.Get tokStore 50 "tok").snd.kv ("session:" ++ "tok")).map
          KVEntry.expiresAt
        = some (50 + tokStore.ttl)) :=
  ⟨⟨by decide, session_roundtrip_ttl.1 emptyStore 0 50 "tok" uuidAlice (by decide)⟩,
   ⟨by decide, session_roundtrip_ttl.2.1 emptyStore 0 120 "tok" uuidAlice (by decide)⟩,
   session_roundtrip_ttl.2.2.1 emptyStore 0 "zzz" (by decide),
   session_roundtrip_ttl.2.2.2 tokStore 50 "tok" uuidAlice (by decide)⟩

/-! ## Claim C7 -/

/-- Claim C7: every failure branch of the browser `RequireAuth`
middleware ends in a 303 redirect to `/login`: a missing cookie and a
failed session lookup redirect without touching the session or the
client cookie, while a session that resolves to a no-longer-existing
user first deletes the session from the store (so no entry under the
session key survives) and clears the client cookie, then redirects. -/
theorem requireAuth_failure_branches :
    (∀ (users : List User) (store : SessionStore) (now : Int),
      AuthMiddleware.RequireAuth users store now { sessionCookie := none }
        = { outcome := .redirect "/login" statusSeeOther, store := store,
            cookieCleared := false })
    ∧ (∀ (users : List User) (store store1 : SessionStore) (now : Int) (cv : String)
        (e : GoErr),
      SessionStore.Get store now cv = (.error e, store1) →
      AuthMiddleware.RequireAuth users store now { sessionCookie := some cv }
        = { outcome := .redirect "/login" statusSeeOther, store := store1,
            cookieCleared := false })
    ∧ (∀ (users : List User) (store store1 : SessionStore) (now : Int) (cv : String)
        (uid : Uuid),
      SessionStore.Get store now cv = (.ok uid, store1) →
      (∀ u ∈ users, u.id ≠ uid) →
      AuthMiddleware.RequireAuth users store now { sessionCookie := some cv }
        = { outcome := .redirect "/login" statusSeeOther,
            store := SessionStore.Delete store1 cv, cookieCleared := true }
      ∧ ∀ e ∈ (SessionStore.Delete store1 cv).kv, e.key ≠ "session:" ++ cv) := by
  refine ⟨?_, ?_, ?_⟩
  · intro users store now
    rfl
  · intro users store store1 now cv e h
    simp only [AuthMiddleware.RequireAuth]
    rw [h]
  · intro users store store1 now cv uid h hu
    have hget : UserService.Get users uid = .error .errNoRows := by
      unfold UserService.Get
      have hnone : users.find? (fun u => u.id == uid) = none := by
        rw [List.find?_eq_none]
        intro u hmem
        simp [hu u hmem]
      rw [hnone]
    constructor
    · simp only [AuthMiddleware.RequireAuth]
      rw [h]
      simp [hget]
    · intro e he
      have h2 := (List.mem_filter.mp he).2
      simpa only [bne_iff_ne, ne_eq] using h2

def bobUser : User :=
  { id := uuidBob, providerId := "gh-bob", provider := .GITHUB,
    email := "bob@example.com", name := "Bob", createdAt := 0, updatedAt := 0 }

def tokStoreRefreshed : SessionStore := (SessionStore.Get tokStore 50 "tok").snd

theorem requireAuth_failure_branches_witness :
    (AuthMiddleware.RequireAuth [bobUser] emptyStore 0 { sessionCookie := none }
        = { outcome := .redirect "/login" statusSeeOther, store := emptyStore,
            cookieCleared := false })
    ∧ (SessionStore.Get emptyStore 0 "zzz" = (.error (.simple "session not found"), emptyStore)
      ∧ AuthMiddleware.RequireAuth [bobUser] emptyStore 0 { sessionCookie := some "zzz" }
          = { outcome := .redirect "/login" statusSeeOther, store := emptyStore,
              cookieCleared := false })
    ∧ (SessionStore.Get tokStore 50 "tok" = (.ok uuidAlice, tokStoreRefreshed)
      ∧ AuthMiddleware.RequireAuth [bobUser] tokStore 50 { sessionCookie := some "tok" }
          = { outcome := .redirect "/login" statusSeeOther,
              store := SessionStore.Delete tokStoreRefreshed "tok", cookieCleared := true }
      ∧ ∀ e ∈ (SessionStore.Delete tokStoreRefreshed "tok").kv, e.key ≠ "session:" ++ "tok") :=
  ⟨requireAuth_failure_branches.1 [bobUser] emptyStore 0,
   ⟨by decide,
    requireAuth_failure_branches.2.1 [bobUser] emptyStore emptyStore 0 "zzz"
      (.simple "session not found") (by decide)⟩,
   ⟨by decide,
    (requireAuth_failure_branches.2.2 [bobUser] tokStore tokStoreRefreshed 50 "tok" uuidAlice
      (by decide) (by decide)).1,
    (requireAuth_failure_branches.2.2 [bobUser] tokStore tokStoreRefreshed 50 "tok" uuidAlice
      (by decide) (by decide)).2⟩⟩

/-! ## Claim C3 -/

def rlProd2 : RateLimiter := { maxRequests := 2, window := 60, isProduction := true }

/-- Claim C3 counterexample: the sorted-set member is the request's
Unix *second*, so calls sharing a second collapse into one member.
With `maxRequests = 2`, three calls at the same second 100 inside one
window are all allowed — the `(max+1)`-th call within the window is
not rejected, contradicting the claim as stated — and the set holds a
single member afterwards. -/
theorem ratelimit_same_second_overadmits :
    RateLimiter.run rlProd2 [] [100, 100, 100] = ([true, true, true], [100]) := by
  decide

theorem ratelimit_run_distinct (rl : RateLimiter) (hprod : rl.isProduction = true)
    (pending : List Int) :
    ∀ done : List Int,
      (done ++ pending).Pairwise (fun a b => a < b) →
      (∀ a ∈ done ++ pending, ∀ b ∈ done ++ pending, a - b < rl.window) →
      (∀ t ∈ done ++ pending, 0 ≤ t) →
      (RateLimiter.run rl done pending).fst
        = (List.range pending.length).map
            (fun (i : Nat) => decide (((done.length + i : Nat) : Int) < rl.maxRequests)) := by
  induction pending with
  | nil =>
      intro done _ _ _
      simp [RateLimiter.run]
  | cons t ts ih =>
      intro done hsort hwin hnn
      have hmem_t : t ∈ done ++ t :: ts := by simp
      have hfilter : done.filter (fun s => !(0 ≤ s && s ≤ t - rl.window)) = done := by
        apply List.filter_eq_self.mpr
        intro d hd
        have hdmem : d ∈ done ++ t :: ts := by simp [hd]
        have h1 : t - d < rl.window := hwin t hmem_t d hdmem
        have h2 : ¬ (d ≤ t - rl.window) := by omega
        simp [h2]
      have ht_not_done : t ∉ done := by
        intro hmem
        have hcross := (List.pairwise_append.mp hsort).2.2
        exact lt_irrefl t (hcross t hmem t (by simp))
      have hcontains : done.contains t = false := by
        by_contra hc'
        have hct : done.contains t = true := by
          revert hc'
          cases done.contains t <;> simp
        exact ht_not_done (by simpa using hct)
      have hstep : rl.checkRateLimit done t
          = { allowed := decide ((done.length : Int) < rl.maxRequests),
              state := done ++ [t],
              ops := [.zremrangebyscore 0 (t - rl.window), .zcard, .zadd t,
                      .keyExpire rl.window] } := by
        unfold RateLimiter.checkRateLimit
        rw [hprod]
        simp only [Bool.not_true, Bool.false_eq_true, if_false]
        rw [hfilter]
        unfold zaddMember
        rw [hcontains]
        simp
      have hconsuffix : (done ++ [t]) ++ ts = done ++ t :: ts := by
        rw [List.append_assoc]
        rfl
      have hsort' : ((done ++ [t]) ++ ts).Pairwise (fun a b => a < b) := by
        rw [hconsuffix]
        exact hsort
      have hwin' : ∀ a ∈ (done ++ [t]) ++ ts, ∀ b ∈ (done ++ [t]) ++ ts,
          a - b < rl.window := by
        rw [hconsuffix]
        exact hwin
      have hnn' : ∀ x ∈ (done ++ [t]) ++ ts, 0 ≤ x := by
        rw [hconsuffix]
        exact hnn
      have ihx := ih (done ++ [t]) hsort' hwin' hnn'
      simp only [RateLimiter.run]
      rw [hstep]
      simp only []
      rw [ihx]
      simp only [List.length_cons]
      rw [List.range_succ_eq_map, List.map_cons, List.map_map]
      congr 1
      apply List.map_congr_left
      intro i _
      simp only [Function.comp_apply, List.length_append, List.length_cons,
        List.length_nil]
      rw [decide_eq_decide]
      push_cast
      omega

/-- Claim C3 amended: in production, a call is allowed iff the
sorted-set cardinality taken after the window purge and before the
current second is inserted is strictly below the maximum, and the
current second is inserted (as a set member) even when the call is
rejected.  Because members are whole seconds, the claimed consequence
— exactly `max` calls per window, the `(max+1)`-th rejected — holds
for calls at pairwise-distinct seconds: over any schedule of strictly
increasing, pairwise-within-one-window, non-negative seconds starting
from an empty set, the `i`-th call is allowed iff `i < max`.  Once a
full window has elapsed past every recorded second, the next call is
allowed again. -/
theorem ratelimit_sliding_window :
    (∀ (rl : RateLimiter) (st : List Int) (now : Int), rl.isProduction = true →
      ((rl.checkRateLimit st now).allowed = true
          ↔ ((st.filter (fun s => !(0 ≤ s && s ≤ now - rl.window))).length : Int)
              < rl.maxRequests)
      ∧ (rl.checkRateLimit st now).state.contains now = true)
    ∧ (∀ (rl : RateLimiter) (times : List Int), rl.isProduction = true →
      times.Pairwise (fun a b => a < b) →
      (∀ a ∈ times, ∀ b ∈ times, a - b < rl.window) →
      (∀ t ∈ times, 0 ≤ t) →
      (RateLimiter.run rl [] times).fst
        = (List.range times.length).map
            (fun (i : Nat) => decide ((i : Int) < rl.maxRequests)))
    ∧ (∀ (rl : RateLimiter) (st : List Int) (now : Int), rl.isProduction = true →
      1 ≤ rl.maxRequests → (∀ s ∈ st, 0 ≤ s ∧ s ≤ now - rl.window) →
      (rl.checkRateLimit st now).allowed = true) := by
  refine ⟨?_, ?_, ?_⟩
  · intro rl st now hprod
    unfold RateLimiter.checkRateLimit
    rw [hprod]
    simp only [Bool.not_true, Bool.false_eq_true, if_false]
    constructor
    · simp
    · exact zaddMember_contains _ _
  · intro rl times hprod hsort hwin hnn
    have h := ratelimit_run_distinct rl hprod times [] (by simpa using hsort)
      (by simpa using hwin) (by simpa using hnn)
    rw [h]
    apply List.map_congr_left
    intro i _
    simp only [List.length_nil]
    rw [decide_eq_decide]
    push_cast
    omega
  · intro rl st now hprod hmax h
    unfold RateLimiter.checkRateLimit
    rw [hprod]
    simp only [Bool.not_true, Bool.false_eq_true, if_false]
    have hempty : st.filter (fun s => !(0 ≤ s && s ≤ now - rl.window)) = [] := by
      apply List.filter_eq_nil_iff.mpr
      intro s hs
      have := h s hs
      simp [this.1, this.2]
    rw [hempty]
    simp
    omega

theorem ratelimit_sliding_window_witness :
    (rlProd2.isProduction = true
      ∧ ((rlProd2.checkRateLimit [10] 20).allowed = true
          ↔ ((([10] : List Int).filter
              (fun s => !(0 ≤ s && s ≤ 20 - rlProd2.window))).length : Int)
              < rlProd2.maxRequests)
      ∧ (rlProd2.checkRateLimit [10] 20).state.contains 20 = true)
    ∧ ((RateLimiter.run rlProd2 [] [100, 130, 150]).fst
        = (List.range 3).map (fun (i : Nat) => decide ((i : Int) < rlProd2.maxRequests)))
    ∧ ((rlProd2.checkRateLimit [10, 40] 100).allowed = true) :=
  ⟨⟨by decide, (ratelimit_sliding_window.1 rlProd2 [10] 20 (by decide)).1,
    (ratelimit_sliding_window.1 rlProd2 [10] 20 (by decide)).2⟩,
   ratelimit_sliding_window.2.1 rlProd2 [100, 130, 150] (by decide) (by decide)
     (by decide) (by decide),
   ratelimit_sliding_window.2.2 rlProd2 [10, 40] 100 (by decide) (by decide) (by decide)⟩

/-! ## Claim C8 -/

/-- The field renaming between the two media kinds: `releaseDate`
becomes `firstAired`, everything else is carried over unchanged. -/
def Movie.toSerie (m : Movie) : Serie :=
  { id := m.id, tmdbId := m.tmdbId, createdAt := m.createdAt, updatedAt := m.updatedAt,
    title := m.title, posterPath := m.posterPath, firstAired := m.releaseDate,
    tmdbScore := m.tmdbScore, score := m.score, watched := m.watched, userId := m.userId }

def CreateMovieInput.toSerie (i : CreateMovieInput) : CreateSerieInput :=
  { tmdbId := i.tmdbId, title := i.title, posterPath := i.posterPath,
    firstAired := i.releaseDate, watched := i.watched, tmdbScore := i.tmdbScore,
    score := i.score }

def UpdateMovieInput.toSerie (i : UpdateMovieInput) : UpdateSerieInput :=
  { id := i.id, score := i.score, watched := i.watched }

def ListMoviesInput.toSerie (i : ListMoviesInput) : ListSeriesInput :=
  { watched := i.watched, query := i.query, page := i.page, limit := i.limit }

def PaginatedMovies.toSerie (p : PaginatedMovies) : PaginatedSeries :=
  { results := p.results.map Movie.toSerie, page := p.page, count := p.count,
    totalPages := p.totalPages }

/-- Renames the media word inside the strings the two services differ
by: the wrap prefixes and the unique-constraint name. -/
def movieWordToSerie (s : String) : String :=
  if s = "failed to create movie" then "failed to create serie"
  else if s = "failed to update movie" then "failed to update serie"
  else if s = "\x22Movie_tmdbId_userId_unique\x22" then "\x22Serie_tmdbId_userId_unique\x22"
  else s

def mediaErrRename : GoErr → GoErr
  | .wrapped p i => .wrapped (movieWordToSerie p) (mediaErrRename i)
  | .pgUniqueViolation c => .pgUniqueViolation (movieWordToSerie c)
  | .errNoRows => .errNoRows
  | .simple m => .simple m

theorem filter_map_congr {α β : Type} (f : α → β) (p : β → Bool) (q : α → Bool)
    (h : ∀ a, p (f a) = q a) (l : List α) :
    (l.map f).filter p = (l.filter q).map f := by
  rw [List.filter_map]
  have hpq : (p ∘ f) = q := funext h
  rw [hpq]

theorem any_map_congr {α β : Type} (f : α → β) (p : β → Bool) (q : α → Bool)
    (h : ∀ a, p (f a) = q a) (l : List α) :
    (l.map f).any p = l.any q := by
  induction l with
  | nil => rfl
  | cons x xs ih => simp [List.any_cons, ih, h]

theorem find?_map_congr {α β : Type} (f : α → β) (p : β → Bool) (q : α → Bool)
    (h : ∀ a, p (f a) = q a) (l : List α) :
    (l.map f).find? p = (l.find? q).map f := by
  rw [List.find?_map]
  have hpq : (p ∘ f) = q := funext h
  rw [hpq]

/-- Claim C8: the Movie and Serie services implement the same policy
modulo the date field name and the target relation.  Transporting a
movie table and movie inputs along the field renaming and running the
Serie service gives exactly the transported result of the Movie
service, for all five operations — identical defaulting, filtering,
ordering, pagination metadata, and identical conflict/no-rows
behaviour up to the renamed table word inside error strings. -/
theorem movie_serie_policy_equivalence :
    (∀ (db : MovieDB) (u : Uuid) (input : ListMoviesInput),
      SerieService.List (db.map Movie.toSerie) u input.toSerie
        = (MovieService.List db u input).toSerie)
    ∧ (∀ (db : MovieDB) (u : Uuid) (input : CreateMovieInput) (nid : Uuid) (now : Timestamp),
      SerieService.Create (db.map Movie.toSerie) u input.toSerie nid now
        = match MovieService.Create db u input nid now with
          | .ok (m, db2) => .ok (m.toSerie, db2.map Movie.toSerie)
          | .error e => .error (mediaErrRename e))
    ∧ (∀ (db : MovieDB) (id u : Uuid),
      SerieService.Get (db.map Movie.toSerie) id u
        = match MovieService.Get db id u with
          | .ok m => .ok m.toSerie
          | .error e => .error (mediaErrRename e))
    ∧ (∀ (db : MovieDB) (u : Uuid) (input : UpdateMovieInput) (now : Timestamp),
      SerieService.Update (db.map Movie.toSerie) u input.toSerie now
        = match MovieService.Update db u input now with
          | .ok (m, db2) => .ok (m.toSerie, db2.map Movie.toSerie)
          | .error e => .error (mediaErrRename e))
    ∧ (∀ (db : MovieDB) (id u : Uuid),
      SerieService.Delete (db.map Movie.toSerie) id u
        = match MovieService.Delete db id u with
          | .ok db2 => .ok (db2.map Movie.toSerie)
          | .error e => .error (mediaErrRename e)) := by
  refine ⟨?_, ?_, ?_, ?_, ?_⟩
  · intro db u input
    have hfil : (db.map Movie.toSerie).filter (serieRowMatches u input.watched input.query)
        = (db.filter (movieRowMatches u input.watched input.query)).map Movie.toSerie :=
      filter_map_congr Movie.toSerie _ _ (fun a => rfl) db
    have hsort : sortDescBy (fun s => s.tmdbScore)
          ((db.filter (movieRowMatches u input.watched input.query)).map Movie.toSerie)
        = (sortDescBy (fun m => m.tmdbScore)
            (db.filter (movieRowMatches u input.watched input.query))).map Movie.toSerie :=
      sortDescBy_map Movie.toSerie _ _ (fun a => rfl) _
    simp only [SerieService.List, MovieService.List, PaginatedMovies.toSerie,
      ListMoviesInput.toSerie, hfil, hsort, List.length_map, List.map_take, List.map_drop]
  · intro db u input nid now
    have hany : (db.map Movie.toSerie).any
          (fun s => s.tmdbId == input.tmdbId && s.userId == u)
        = db.any (fun m => m.tmdbId == input.tmdbId && m.userId == u) :=
      any_map_congr Movie.toSerie _ _ (fun a => rfl) db
    simp only [SerieService.Create, MovieService.Create, CreateMovieInput.toSerie, hany]
    by_cases hdup : db.any (fun m => m.tmdbId == input.tmdbId && m.userId == u) = true
    · rw [if_pos hdup, if_pos hdup]
      have hr : mediaErrRename (GoErr.wrapped "failed to create movie"
            (GoErr.pgUniqueViolation "\x22Movie_tmdbId_userId_unique\x22"))
          = GoErr.wrapped "failed to create serie"
            (GoErr.pgUniqueViolation "\x22Serie_tmdbId_userId_unique\x22") := by decide
      simp [hr]
    · rw [if_neg hdup, if_neg hdup]
      simp only [List.map_append, List.map_cons, List.map_nil]
      rfl
  · intro db id u
    have hfind : (db.map Movie.toSerie).find? (fun s => s.id == id && s.userId == u)
        = (db.find? (fun m => m.id == id && m.userId == u)).map Movie.toSerie :=
      find?_map_congr Movie.toSerie _ _ (fun a => rfl) db
    simp only [SerieService.Get, MovieService.Get, hfind]
    rcases hf : db.find? (fun m => m.id == id && m.userId == u) with _ | m
    · simp [hf, mediaErrRename]
    · simp [hf]
  · intro db u input now
    have hfind : (db.map Movie.toSerie).find?
          (fun s => s.id == input.id && s.userId == u)
        = (db.find? (fun m => m.id == input.id && m.userId == u)).map Movie.toSerie :=
      find?_map_congr Movie.toSerie _ _ (fun a => rfl) db
    have hmap : (db.map Movie.toSerie).map
          (fun r => if r.id == input.id && r.userId == u
              then applySerieUpdate
                { id := input.id, score := input.score, watched := input.watched } now r
              else r)
        = (db.map (fun r => if r.id == input.id && r.userId == u
              then applyMovieUpdate input now r else r)).map Movie.toSerie := by
      rw [List.map_map, List.map_map]
      apply List.map_congr_left
      intro r _
      simp only [Function.comp_apply]
      have hcond : ((Movie.toSerie r).id == input.id && (Movie.toSerie r).userId == u)
          = (r.id == input.id && r.userId == u) := rfl
      rw [hcond]
      by_cases hc : (r.id == input.id && r.userId == u) = true
      · rw [if_pos hc, if_pos hc]
        rfl
      · rw [if_neg hc, if_neg hc]
    simp only [SerieService.Update, MovieService.Update, UpdateMovieInput.toSerie, hfind]
    rcases hf : db.find? (fun m => m.id == input.id && m.userId == u) with _ | m
    · have hr : mediaErrRename (GoErr.wrapped "failed to update movie" GoErr.errNoRows)
          = GoErr.wrapped "failed to update serie" GoErr.errNoRows := by decide
      simp [hf, hr]
    · simp only [hf, Option.map_some', hmap]
      rfl
  · intro db id u
    have hfil : (db.map Movie.toSerie).filter (fun s => !(s.id == id && s.userId == u))
        = (db.filter (fun m => !(m.id == id && m.userId == u))).map Movie.toSerie :=
      filter_map_congr Movie.toSerie _ _ (fun a => rfl) db
    simp only [SerieService.Delete, MovieService.Delete, hfil, List.length_map]
    by_cases hlen : ((db.filter (fun m => !(m.id == id && m.userId == u))).length
        == db.length) = true
    · rw [if_pos hlen, if_pos hlen]
      rfl
    · rw [if_neg hlen, if_neg hlen]
